import Mathlib

/-
Verification of the learn-All-Courses repository content against its
natural-language specification.

The repository consists of three tutorial notebooks (clustering with the
seeds dataset, PyTorch datasets and dataloaders on FashionMNIST, TensorFlow
automatic differentiation) and two Learn course-module YAML metadata files.
The developments below shallowly embed the code cells of the notebooks and
the metadata of the YAML files, and prove the stated properties about them.
Numeric data is modelled with rationals; grayscale pixel values and labels
with naturals.
-/

/- ===== Clustering notebook: 01-clustering-introduction.ipynb ===== -/

/-- The clustering notebook builds its feature table with
`features = data[data.columns[0:6]]`: from the loaded seeds dataframe it
selects the columns labelled by the first six column names, i.e. the first
six columns of every row.  A dataframe is modelled as its list of rows. -/
def features (data : List (List ℚ)) : List (List ℚ) :=
  data.map (fun r => r.take 6)

/-- The cluster-count search of the clustering notebook:
`wcss = []` followed by `for i in range(1, 11)` which fits
`KMeans(n_clusters = i)` on `features.values` and appends
`kmeans.inertia_` to `wcss`.  The library fit is abstracted by the
function `inertia`, mapping a cluster count and the feature matrix to the
fitted model's WCSS value. -/
def wcss (inertia : Nat → List (List ℚ) → ℚ) (X : List (List ℚ)) : List ℚ :=
  (List.range' 1 10).foldl (fun acc i => acc ++ [inertia i X]) []

/-- C1: the cluster-count search loops over i = 1..10 in increasing order,
fits one KMeans model per iteration on the feature matrix, and appends its
WCSS, so the resulting list has exactly 10 elements and its entry at
0-based index k is the WCSS of the model with k+1 clusters. -/
theorem wcss_loop_spec (inertia : Nat → List (List ℚ) → ℚ)
    (X : List (List ℚ)) :
    (wcss inertia X).length = 10 ∧
    ∀ k, k < 10 → (wcss inertia X).getD k 0 = inertia (k + 1) X := by
  have hw : wcss inertia X =
      [inertia 1 X, inertia 2 X, inertia 3 X, inertia 4 X, inertia 5 X,
       inertia 6 X, inertia 7 X, inertia 8 X, inertia 9 X, inertia 10 X] := by
    simp [wcss, List.range']
  refine ⟨by rw [hw]; rfl, ?_⟩
  intro k hk
  rw [hw]
  interval_cases k <;> rfl

/-- Concrete instance of the cluster-count search property: for a fixed
inertia function and feature matrix, the list has length 10 and the entry
at index 2 is the WCSS of the 3-cluster model. -/
theorem wcss_loop_spec_witness :
    (wcss (fun i _ => (i : ℚ) * 2) [[1, 2]]).length = 10 ∧
    (wcss (fun i _ => (i : ℚ) * 2) [[1, 2]]).getD 2 0 =
      (fun (i : Nat) (_ : List (List ℚ)) => (i : ℚ) * 2) 3 [[1, 2]] :=
  ⟨(wcss_loop_spec (fun i _ => (i : ℚ) * 2) [[1, 2]]).1,
   (wcss_loop_spec (fun i _ => (i : ℚ) * 2) [[1, 2]]).2 2 (by decide)⟩

/-- C5: the feature table consists of exactly the first six columns of the
loaded seeds dataset: it has one row per observation, every row has exactly
six entries, the entry at position j of row i is the entry at position j of
row i of the dataset, and re-selecting the first six columns (as the
normalization cell does with `features[data.columns[0:6]]`) leaves the
table unchanged. -/
theorem features_first_six_columns (data : List (List ℚ))
    (h : ∀ r ∈ data, 6 ≤ r.length) :
    (features data).length = data.length ∧
    (∀ row ∈ features data, row.length = 6) ∧
    features (features data) = features data ∧
    ∀ i, i < data.length →
      (features data).getD i [] = (data.getD i []).take 6 := by
  refine ⟨by simp [features], ?_, ?_, ?_⟩
  · intro row hrow
    rcases List.mem_map.mp hrow with ⟨r, hr, hrw⟩
    have h6 := h r hr
    simp [← hrw, List.length_take]
    omega
  · simp [features, List.take_take]
  · intro i hi
    simp [features, List.getD_eq_getElem?_getD, List.getElem?_map]
    rcases Nat.lt_or_ge i data.length with hlt | hge
    · rw [List.getElem?_eq_getElem hlt]
      rfl
    · omega

/-- Concrete instance of the first-six-columns property on an 8-column
dataset row, matching the seeds CSV layout of seven measurements plus a
species column. -/
theorem features_first_six_columns_witness :
    (∀ r ∈ [[(15 : ℚ), 14, 8, 5, 3, 2, 5, 1]], 6 ≤ r.length) ∧
    (features [[(15 : ℚ), 14, 8, 5, 3, 2, 5, 1]]).length = 1 ∧
    (∀ row ∈ features [[(15 : ℚ), 14, 8, 5, 3, 2, 5, 1]], row.length = 6) :=
  ⟨by decide,
   (features_first_six_columns [[(15 : ℚ), 14, 8, 5, 3, 2, 5, 1]]
      (by decide)).1,
   (features_first_six_columns [[(15 : ℚ), 14, 8, 5, 3, 2, 5, 1]]
      (by decide)).2.1⟩

/- ===== Normalization and PCA (clustering notebook, cell 3) =====
The notebook computes
  scaled_features = MinMaxScaler().fit_transform(features[data.columns[0:6]])
  pca = PCA(n_components=2).fit(scaled_features)
  features_2d = pca.transform(scaled_features)
Both routines are scikit-learn library code, outside this repository; they
are modelled from their documented behavior. -/

/-- Column j of a row-major matrix, as read by the per-column scaler. -/
def column (X : List (List ℚ)) (j : Nat) : List ℚ :=
  X.map (fun r => r.getD j 0)

/-- Minimum of a list of rationals (0 for the empty list). -/
def listMin : List ℚ → ℚ
  | [] => 0
  | x :: xs => xs.foldl min x

/-- Maximum of a list of rationals (0 for the empty list). -/
def listMax : List ℚ → ℚ
  | [] => 0
  | x :: xs => xs.foldl max x

/-- Modelled from the spec: scikit-learn replaces a zero data range by 1
before dividing, so constant columns scale to 0 instead of failing. -/
def handleZero (d : ℚ) : ℚ := if d = 0 then 1 else d

/-- Modelled from the spec: the MinMaxScaler entry formula with the default
feature range (0, 1): an entry x in column j becomes
(x - min of column j) / (max of column j - min of column j). -/
def scaleEntry (X : List (List ℚ)) (j : Nat) (x : ℚ) : ℚ :=
  (x - listMin (column X j)) /
    handleZero (listMax (column X j) - listMin (column X j))

/-- Modelled from the spec: `MinMaxScaler().fit_transform(X)` rescales every
column of X to the interval [0, 1] entrywise, keeping the shape of X. -/
def fit_transform (X : List (List ℚ)) : List (List ℚ) :=
  X.map (fun r => (List.range r.length).map (fun j => scaleEntry X j (r.getD j 0)))

/-- Sum of pairwise products, the projection of a row onto one component. -/
def dot (a b : List ℚ) : ℚ :=
  (List.zipWith (fun x y => x * y) a b).sum

/-- Modelled from the spec: `PCA(n_components=2)` fitted on the scaled
features yields a fitted mean and a list of two principal components;
`transform` centers every row at the mean and projects it onto each
component, producing one coordinate per component. -/
def pca_transform (mean : List ℚ) (components : List (List ℚ))
    (X : List (List ℚ)) : List (List ℚ) :=
  X.map (fun r =>
    components.map (fun comp => dot (List.zipWith (fun a b => a - b) r mean) comp))

theorem foldl_min_le (l : List ℚ) (a : ℚ) : l.foldl min a ≤ a := by
  induction l generalizing a with
  | nil => simp
  | cons x xs ih =>
    simpa using le_trans (ih (min a x)) (min_le_left a x)

theorem foldl_min_le_of_mem (l : List ℚ) (a x : ℚ) (hx : x ∈ l) :
    l.foldl min a ≤ x := by
  induction l generalizing a with
  | nil => cases hx
  | cons y ys ih =>
    rcases List.mem_cons.mp hx with h | h
    · subst h
      simpa using le_trans (foldl_min_le ys (min a x)) (min_le_right a x)
    · simpa using ih (min a y) h

theorem le_foldl_max (l : List ℚ) (a : ℚ) : a ≤ l.foldl max a := by
  induction l generalizing a with
  | nil => simp
  | cons x xs ih =>
    simpa using le_trans (le_max_left a x) (ih (max a x))

theorem le_foldl_max_of_mem (l : List ℚ) (a x : ℚ) (hx : x ∈ l) :
    x ≤ l.foldl max a := by
  induction l generalizing a with
  | nil => cases hx
  | cons y ys ih =>
    rcases List.mem_cons.mp hx with h | h
    · subst h
      simpa using le_trans (le_max_right a x) (le_foldl_max ys (max a x))
    · simpa using ih (max a y) h

theorem listMin_le (l : List ℚ) (x : ℚ) (hx : x ∈ l) : listMin l ≤ x := by
  cases l with
  | nil => cases hx
  | cons y ys =>
    rcases List.mem_cons.mp hx with h | h
    · subst h; exact foldl_min_le ys x
    · exact foldl_min_le_of_mem ys y x h

theorem le_listMax (l : List ℚ) (x : ℚ) (hx : x ∈ l) : x ≤ listMax l := by
  cases l with
  | nil => cases hx
  | cons y ys =>
    rcases List.mem_cons.mp hx with h | h
    · subst h; exact le_foldl_max ys x
    · exact le_foldl_max_of_mem ys y x h

theorem listMin_lt_listMax (l : List ℚ) (a b : ℚ)
    (ha : a ∈ l) (hb : b ∈ l) (hab : a ≠ b) : listMin l < listMax l := by
  rcases lt_or_gt_of_ne hab with h | h
  · exact lt_of_le_of_lt (listMin_le l a ha)
      (lt_of_lt_of_le h (le_listMax l b hb))
  · exact lt_of_le_of_lt (listMin_le l b hb)
      (lt_of_lt_of_le h (le_listMax l a ha))

/-- C4: on a feature matrix whose columns each contain two distinct values,
MinMaxScaler.fit_transform keeps the number of rows and columns and maps
every entry into [0, 1], and the PCA transform with two components keeps
the number of rows and produces exactly two columns. -/
theorem scaling_pca_shapes (X : List (List ℚ)) (c : Nat)
    (hrect : ∀ r ∈ X, r.length = c)
    (hdist : ∀ j, j < c → ∃ a ∈ column X j, ∃ b ∈ column X j, a ≠ b)
    (mean : List ℚ) (components : List (List ℚ))
    (hcomp : components.length = 2) :
    (fit_transform X).length = X.length ∧
    (∀ row ∈ fit_transform X, row.length = c) ∧
    (∀ row ∈ fit_transform X, ∀ x ∈ row, 0 ≤ x ∧ x ≤ 1) ∧
    (pca_transform mean components (fit_transform X)).length = X.length ∧
    (∀ row ∈ pca_transform mean components (fit_transform X),
      row.length = 2) := by
  refine ⟨by simp [fit_transform], ?_, ?_, ?_, ?_⟩
  · intro row hrow
    rcases List.mem_map.mp hrow with ⟨r, hr, hrw⟩
    simpa [← hrw] using hrect r hr
  · intro row hrow x hxrow
    rcases List.mem_map.mp hrow with ⟨r, hr, hrw⟩
    rcases List.mem_map.mp (hrw ▸ hxrow) with ⟨j, hj, hxj⟩
    have hjc : j < c := (hrect r hr) ▸ List.mem_range.mp hj
    have hmem : r.getD j 0 ∈ column X j :=
      List.mem_map.mpr ⟨r, hr, rfl⟩
    have hmn : listMin (column X j) ≤ r.getD j 0 :=
      listMin_le (column X j) _ hmem
    have hmx : r.getD j 0 ≤ listMax (column X j) :=
      le_listMax (column X j) _ hmem
    rcases hdist j hjc with ⟨a, ha, b, hb, hab⟩
    have hlt : listMin (column X j) < listMax (column X j) :=
      listMin_lt_listMax (column X j) a b ha hb hab
    have hdpos : 0 < listMax (column X j) - listMin (column X j) := by
      linarith
    have hhz : handleZero (listMax (column X j) - listMin (column X j)) =
        listMax (column X j) - listMin (column X j) := by
      unfold handleZero
      rw [if_neg (ne_of_gt hdpos)]
    rw [← hxj]
    unfold scaleEntry
    rw [hhz]
    constructor
    · exact div_nonneg (by linarith) (le_of_lt hdpos)
    · rw [div_le_one hdpos]
      linarith
  · simp [pca_transform, fit_transform]
  · intro row hrow
    rcases List.mem_map.mp hrow with ⟨r, hr, hrw⟩
    simp [← hrw, hcomp]

/-- Concrete instance: on the 2x2 matrix [[0, 10], [2, 20]] (both columns
have distinct values) the scaled entries all lie in [0, 1] and the PCA
output with two identity components has two columns per row. -/
theorem scaling_pca_shapes_witness :
    (∀ r ∈ [[(0 : ℚ), 10], [2, 20]], r.length = 2) ∧
    (∀ j, j < 2 → ∃ a ∈ column [[(0 : ℚ), 10], [2, 20]] j,
      ∃ b ∈ column [[(0 : ℚ), 10], [2, 20]] j, a ≠ b) ∧
    (∀ row ∈ fit_transform [[(0 : ℚ), 10], [2, 20]],
      ∀ x ∈ row, 0 ≤ x ∧ x ≤ 1) ∧
    (∀ row ∈ pca_transform [0, 0] [[1, 0], [0, 1]]
        (fit_transform [[(0 : ℚ), 10], [2, 20]]), row.length = 2) :=
  ⟨by decide, by decide,
   (scaling_pca_shapes [[(0 : ℚ), 10], [2, 20]] 2 (by decide) (by decide)
      [0, 0] [[1, 0], [0, 1]] rfl).2.2.1,
   (scaling_pca_shapes [[(0 : ℚ), 10], [2, 20]] 2 (by decide) (by decide)
      [0, 0] [[1, 0], [0, 1]] rfl).2.2.2.2⟩

/- ===== PyTorch data notebook: 3-data.ipynb ===== -/

/-- The labels_map dictionary of the data notebook, mapping each integer
class label of FashionMNIST to its class name. -/
def labels_map : List (Nat × String) :=
  [(0, "T-Shirt"),
   (1, "Trouser"),
   (2, "Pullover"),
   (3, "Dress"),
   (4, "Coat"),
   (5, "Sandal"),
   (6, "Shirt"),
   (7, "Sneaker"),
   (8, "Bag"),
   (9, "Ankle Boot")]

/-- Modelled from the spec: the FashionMNIST dataset loaded by
`datasets.FashionMNIST` is library data outside this repository; per the
notebook, each sample comprises a 28 by 28 grayscale image with pixel
intensities between 0 and 255 and an associated label from one of 10
classes. -/
structure FashionSample where
  image : Fin 28 → Fin 28 → Nat
  label : Nat
  pixel_le : ∀ i j, image i j ≤ 255
  label_le : label ≤ 9

/-- C3: labels_map is defined on exactly the integer keys 0 through 9, in
order, its class-name values are pairwise distinct, and the label of every
dataset sample lies in 0..9 (hence is a key of labels_map) while its image
is 28 by 28 with pixel values at most 255. -/
theorem labels_map_ten_classes :
    labels_map.map Prod.fst = List.range 10 ∧
    (labels_map.map Prod.snd).Nodup ∧
    ∀ s : FashionSample,
      s.label ∈ labels_map.map Prod.fst ∧ ∀ i j, s.image i j ≤ 255 := by
  refine ⟨by decide, by decide, ?_⟩
  intro s
  refine ⟨?_, s.pixel_le⟩
  have h := s.label_le
  have : labels_map.map Prod.fst = List.range 10 := by decide
  rw [this, List.mem_range]
  omega

/-- The target_transform lambda of the data notebook:
`torch.zeros(10, dtype=torch.float).scatter_(dim=0, index=torch.tensor(y), value=1)`,
a length-10 zero vector with the entry at index y set to 1. -/
def target_transform (y : Nat) : List ℚ :=
  (List.replicate 10 (0 : ℚ)).set y 1

/-- C8: for every label y between 0 and 9, target_transform returns the
one-hot encoding of y: a length-10 vector that is 1 at index y, 0 at every
other index in 0..9, and whose entries sum to 1. -/
theorem target_transform_one_hot (y : Nat) (hy : y ≤ 9) :
    (target_transform y).length = 10 ∧
    (target_transform y).getD y 0 = 1 ∧
    (∀ j, j ≤ 9 → j ≠ y → (target_transform y).getD j 0 = 0) ∧
    (target_transform y).sum = 1 := by
  interval_cases y <;>
    exact ⟨rfl, rfl, by decide, by simp [target_transform, List.replicate]⟩

/-- Concrete instance: the one-hot encoding of label 3. -/
theorem target_transform_one_hot_witness :
    (3 ≤ 9 ∧ (target_transform 3).getD 3 0 = 1) ∧ (target_transform 3).sum = 1 :=
  ⟨⟨by decide, (target_transform_one_hot 3 (by decide)).2.1⟩,
   (target_transform_one_hot 3 (by decide)).2.2.2⟩

/- ===== TensorFlow autodiff notebook: 3-automatic-differentiation.ipynb =====
The notebook multiplies U (1 by 2) by V (2 by 2), sums the product into the
scalar f, and asks the gradient tape for df/dU and df/dV.  The gradient
computed by the library is modelled as the mathematical derivative, which
the notebook itself derives symbolically in its closing section. -/

/-- Entry (1,1) of W = U V as computed by `tf.matmul(U, V)`. -/
def W11 {K : Type} [Field K] (u1 u2 v11 v21 : K) : K := u1 * v11 + u2 * v21

/-- Entry (1,2) of W = U V as computed by `tf.matmul(U, V)`. -/
def W12 {K : Type} [Field K] (u1 u2 v12 v22 : K) : K := u1 * v12 + u2 * v22

/-- The scalar f = sum(U V) computed by `tf.math.reduce_sum(W)`. -/
def f {K : Type} [Field K] (u1 u2 v11 v12 v21 v22 : K) : K :=
  W11 u1 u2 v11 v21 + W12 u1 u2 v12 v22

/-- The symbolic gradient df/dU = [v11 + v12, v21 + v22] stated by the
notebook's math section. -/
def gradU {K : Type} [Field K] (v11 v12 v21 v22 : K) : K × K :=
  (v11 + v12, v21 + v22)

/-- The symbolic gradient df/dV = [[u1, u1], [u2, u2]] stated by the
notebook's math section, flattened row-major. -/
def gradV {K : Type} [Field K] (u1 u2 : K) : K × K × K × K :=
  (u1, u1, u2, u2)

/-- C7: for all real inputs, the derivative of f with respect to each entry
of U is the corresponding entry of [v11 + v12, v21 + v22] and with respect
to each entry of V is the corresponding entry of [[u1, u1], [u2, u2]]; at
U = [1, 2] and V = [[3, 4], [5, 6]] these gradients are [7, 11] and
[[1, 1], [2, 2]]. -/
theorem tape_gradient_matches_symbolic (u1 u2 v11 v12 v21 v22 : ℝ) :
    HasDerivAt (fun u => f u u2 v11 v12 v21 v22) (gradU v11 v12 v21 v22).1 u1 ∧
    HasDerivAt (fun u => f u1 u v11 v12 v21 v22) (gradU v11 v12 v21 v22).2 u2 ∧
    HasDerivAt (fun v => f u1 u2 v v12 v21 v22) (gradV u1 u2).1 v11 ∧
    HasDerivAt (fun v => f u1 u2 v11 v v21 v22) (gradV u1 u2).2.1 v12 ∧
    HasDerivAt (fun v => f u1 u2 v11 v12 v v22) (gradV u1 u2).2.2.1 v21 ∧
    HasDerivAt (fun v => f u1 u2 v11 v12 v21 v) (gradV u1 u2).2.2.2 v22 ∧
    gradU (3 : ℝ) 4 5 6 = (7, 11) ∧
    gradV (1 : ℝ) 2 = (1, 1, 2, 2) := by
  refine ⟨?_, ?_, ?_, ?_, ?_, ?_, ?_, ?_⟩
  · have h : HasDerivAt
        (fun u : ℝ => u * v11 + u2 * v21 + (u * v12 + u2 * v22))
        (1 * v11 + 1 * v12) u1 :=
      (((hasDerivAt_id u1).mul_const v11).add_const (u2 * v21)).add
        (((hasDerivAt_id u1).mul_const v12).add_const (u2 * v22))
    simpa [f, W11, W12, gradU] using h
  · have h : HasDerivAt
        (fun u : ℝ => u1 * v11 + u * v21 + (u1 * v12 + u * v22))
        (u1 * v11 + 1 * v21 + (u1 * v12 + 1 * v22) - (u1 * v11 + u1 * v12)) u2 := by
      have h1 : HasDerivAt (fun u : ℝ => u * v21) (1 * v21) u2 :=
        (hasDerivAt_id u2).mul_const v21
      have h2 : HasDerivAt (fun u : ℝ => u * v22) (1 * v22) u2 :=
        (hasDerivAt_id u2).mul_const v22
      have h3 := (h1.const_add (u1 * v11)).add (h2.const_add (u1 * v12))
      convert h3 using 1
      ring
    have h4 : (u1 * v11 + 1 * v21 + (u1 * v12 + 1 * v22) - (u1 * v11 + u1 * v12)) =
        v21 + v22 := by ring
    rw [h4] at h
    simpa [f, W11, W12, gradU] using h
  · have h : HasDerivAt (fun v : ℝ => u1 * v) (u1 * 1) v11 :=
      (hasDerivAt_id v11).const_mul u1
    have h2 := (h.add_const (u2 * v21)).add_const (W12 u1 u2 v12 v22)
    simpa [f, W11, W12, gradV, add_assoc] using h2
  · have h : HasDerivAt (fun v : ℝ => u1 * v) (u1 * 1) v12 :=
      (hasDerivAt_id v12).const_mul u1
    have h2 := (h.add_const (u2 * v22)).const_add (W11 u1 u2 v11 v21)
    simpa [f, W11, W12, gradV, add_assoc] using h2
  · have h : HasDerivAt (fun v : ℝ => u2 * v) (u2 * 1) v21 :=
      (hasDerivAt_id v21).const_mul u2
    have h2 := (h.const_add (u1 * v11)).add_const (W12 u1 u2 v12 v22)
    simpa [f, W11, W12, gradV] using h2
  · have h : HasDerivAt (fun v : ℝ => u2 * v) (u2 * 1) v22 :=
      (hasDerivAt_id v22).const_mul u2
    have h2 := (h.const_add (u1 * v12)).const_add (W11 u1 u2 v11 v21)
    simpa [f, W11, W12, gradV] using h2
  · norm_num [gradU]
  · norm_num [gradV]

/- ===== Learn course-module YAML metadata ===== -/

/-- A Learn course module as registered by a `YamlMime:Module` file: the
metadata fields this development reasons about (uid, title, summary, the
unit uid list and the product tag list). -/
structure LearnModule where
  uid : String
  title : String
  summary : String
  units : List String
  products : List String
deriving DecidableEq

/-- The module metadata of the AI fundamentals YAML file
(`uid: learn.azure.ai-machine-learning-fundamentals`).  The fifth units
entry carries a leading space in the source file. -/
def aiMachineLearningFundamentals : LearnModule :=
  { uid := "learn.azure.ai-machine-learning-fundamentals"
    title := "Choose the best AI service for your needs"
    summary := "Examine Azure's AI services, and choose the right one for your company."
    units :=
      ["learn.azure.ai-machine-learning-fundamentals.introduction",
       "learn.azure.ai-machine-learning-fundamentals.identify-product-options",
       "learn.azure.ai-machine-learning-fundamentals.analyze-decision-criteria",
       "learn.azure.ai-machine-learning-fundamentals.use-machine-learning",
       " learn.azure.ai-machine-learning-fundamentals.use-cognitive-services",
       "learn.azure.ai-machine-learning-fundamentals.use-bot-services",
       "learn.azure.ai-machine-learning-fundamentals.knowledge-check",
       "learn.azure.ai-machine-learning-fundamentals.summary"]
    products :=
      ["azure",
       "azure-bot-service",
       "azure-cognitive-services",
       "azure-machine-learning"] }

/-- The module metadata of
`learn-pr/advocates/responsible-bots-introduction/index.yml`. -/
def responsibleBotsIntroduction : LearnModule :=
  { uid := "learn.advocates.responsible-bots-introduction"
    title := "Introduction to responsible bots"
    summary := "Find out how to make a bot responsible. Learn about responsible conversational AI. Discover Azure Cognitive Services tools that help make bots engaging and trustworthy."
    units :=
      ["learn.advocates.responsible-bots-introduction.1-introduction",
       "learn.advocates.responsible-bots-introduction.2-what-is-responsible-bot",
       "learn.advocates.responsible-bots-introduction.3-how-responsible-bot-works",
       "learn.advocates.responsible-bots-introduction.4-when-to-use-responsible-bot",
       "learn.advocates.responsible-bots-introduction.5-knowledge-check",
       "learn.advocates.responsible-bots-introduction.6-summary"]
    products :=
      ["azure",
       "azure-cognitive-services"] }

/-- The course-module YAML files present in the repository. -/
def repoModules : List LearnModule :=
  [aiMachineLearningFundamentals, responsibleBotsIntroduction]

/-- C6: every course-module YAML file defines a non-empty title string, a
non-empty summary string, a non-empty units list and a non-empty products
list, as the Learn registration schema requires. -/
theorem modules_conform_to_schema :
    ∀ m ∈ repoModules,
      m.title ≠ "" ∧ m.summary ≠ "" ∧
      m.units.length > 0 ∧ m.products.length > 0 := by
  decide

set_option maxRecDepth 20000 in
/-- Concrete instance: the responsible-bots module satisfies the schema. -/
theorem modules_conform_to_schema_witness :
    responsibleBotsIntroduction ∈ repoModules ∧
    responsibleBotsIntroduction.units.length > 0 ∧
    responsibleBotsIntroduction.products.length > 0 :=
  ⟨by decide,
   (modules_conform_to_schema responsibleBotsIntroduction (by decide)).2.2.1,
   (modules_conform_to_schema responsibleBotsIntroduction (by decide)).2.2.2⟩

/-- Drop the leading whitespace characters of a character list. -/
def stripLeadingWS : List Char → List Char
  | [] => []
  | c :: cs => if c.isWhitespace then stripLeadingWS cs else c :: cs

/-- The qualified-unit check: after stripping leading whitespace, a units
entry starts with the module uid followed by a dot, and a non-empty unit
name follows that dot. -/
def unitQualified (uid u : String) : Bool :=
  ((uid.data ++ [ '.' ]).isPrefixOf (stripLeadingWS u.data)) &&
    (uid.data.length + 1 < (stripLeadingWS u.data).length)

set_option maxRecDepth 20000 in
/-- C9: in every module YAML file, every units entry begins, after
stripping leading whitespace, with the module uid followed by a dot and a
unit name; the raw strings do not all have that property, since one entry
of the AI fundamentals file carries a leading space. -/
theorem units_carry_module_uid :
    (∀ m ∈ repoModules, ∀ u ∈ m.units, unitQualified m.uid u = true) ∧
    ∃ m ∈ repoModules, ∃ u ∈ m.units,
      ((m.uid.data ++ [ '.' ]).isPrefixOf u.data) = false := by
  constructor
  · decide
  · exact ⟨aiMachineLearningFundamentals, by decide,
      " learn.azure.ai-machine-learning-fundamentals.use-cognitive-services",
      by decide, by decide⟩

/- ===== Error handling across the notebooks =====
A notebook cell is a sequence of top-level statements, each a call into a
library (download, parse, scale, fit, differentiate, plot).  The statement
language below also has a try/except form, so that its absence from the
embedded cells is a checkable fact about the notebooks: no cell catches,
transforms or recovers from an error, and a failing call aborts the rest
of its cell with the library error unchanged. -/

/-- A top-level notebook statement: a library call (identified by the name
of the operation it performs), or a try/except block. -/
inductive Stmt where
  | call : String → Stmt
  | tryCatch : Stmt → Stmt → Stmt
deriving DecidableEq

/-- The operation name a statement announces (empty for a try/except). -/
def nameOf : Stmt → String
  | .call n => n
  | .tryCatch _ _ => ""

/-- Whether a statement is a bare library call. -/
def isCall : Stmt → Bool
  | .call _ => true
  | .tryCatch _ _ => false

/-- Run one statement against an oracle giving each library call's outcome;
the result pairs the list of calls actually executed, in order, with the
cell outcome.  A try/except runs its handler when its body fails. -/
def runStmtTrace (oracle : String → Except String Unit) :
    Stmt → List String × Except String Unit
  | .call n => ([n], oracle n)
  | .tryCatch b h =>
    match runStmtTrace oracle b with
    | (t, Except.ok u) => (t, Except.ok u)
    | (t, Except.error _) =>
      match runStmtTrace oracle h with
      | (t2, r2) => (t ++ t2, r2)

/-- Run the statements of a cell in order, stopping at the first failing
statement and returning its error. -/
def runCellTrace (oracle : String → Except String Unit) :
    List Stmt → List String × Except String Unit
  | [] => ([], Except.ok ())
  | s :: rest =>
    match runStmtTrace oracle s with
    | (t, Except.error e) => (t, Except.error e)
    | (t, Except.ok _) =>
      match runCellTrace oracle rest with
      | (t2, r2) => (t ++ t2, r2)

/-- Cell 1 of the clustering notebook: dataset download, CSV parse, column
selection, sampling. -/
def clusteringLoadCell : List Stmt :=
  [.call "wget seeds.csv", .call "pd.read_csv", .call "select features",
   .call "features.sample"]

/-- Cell 3 of the clustering notebook: scaling and PCA. -/
def clusteringScaleCell : List Stmt :=
  [.call "MinMaxScaler fit_transform", .call "PCA fit", .call "pca.transform"]

/-- Cell 5 of the clustering notebook: the scatter plot. -/
def clusteringScatterCell : List Stmt :=
  [.call "plt.scatter", .call "plt.xlabel", .call "plt.ylabel",
   .call "plt.title", .call "plt.show"]

/-- Cell 7 of the clustering notebook: the KMeans fitting loop and the
WCSS line plot. -/
def clusteringWcssCell : List Stmt :=
  [.call "KMeans fitting loop", .call "plt.plot", .call "plt.title",
   .call "plt.xlabel", .call "plt.ylabel", .call "plt.show"]

/-- Cell 1 of the data notebook: the two FashionMNIST downloads. -/
def dataLoadCell : List Stmt :=
  [.call "FashionMNIST train download", .call "FashionMNIST test download"]

/-- Cell 3 of the data notebook: labels_map, figure, sample plotting. -/
def dataVisualizeCell : List Stmt :=
  [.call "plt.figure", .call "sample plotting loop", .call "plt.show"]

/-- Cell 5 of the data notebook: the two DataLoader wrappings. -/
def dataLoaderCell : List Stmt :=
  [.call "DataLoader train", .call "DataLoader test"]

/-- Cell 7 of the data notebook: batch retrieval and display. -/
def dataIterateCell : List Stmt :=
  [.call "next iter train_dataloader", .call "print batch shapes",
   .call "plt.imshow", .call "plt.show", .call "print label"]

/-- Cell 10 of the data notebook: FashionMNIST with target_transform. -/
def dataTransformCell : List Stmt :=
  [.call "FashionMNIST with target_transform"]

/-- Cell 0 of the autodiff notebook: environment setup and import. -/
def autodiffImportCell : List Stmt :=
  [.call "set CUDA_VISIBLE_DEVICES", .call "import tensorflow"]

/-- Cell 2 of the autodiff notebook: constants, tape, two gradients. -/
def autodiffConstantCell : List Stmt :=
  [.call "tf.constant U V", .call "tape matmul reduce_sum",
   .call "tape.gradient U", .call "tape.gradient V"]

/-- Cell 4 of the autodiff notebook: variables, tape, two gradients. -/
def autodiffVariableCell : List Stmt :=
  [.call "tf.Variable U V", .call "tape matmul reduce_sum again",
   .call "tape.gradient U again", .call "tape.gradient V again"]

/-- The code cells of the three notebooks. -/
def notebookCells : List (List Stmt) :=
  [clusteringLoadCell, clusteringScaleCell, clusteringScatterCell,
   clusteringWcssCell, dataLoadCell, dataVisualizeCell, dataLoaderCell,
   dataIterateCell, dataTransformCell, autodiffImportCell,
   autodiffConstantCell, autodiffVariableCell]

theorem runCellTrace_stops_at_error (oracle : String → Except String Unit)
    (cell : List Stmt) : ∀ (k : Nat) (c e : String),
    (∀ s ∈ cell, isCall s = true) → k < cell.length →
    cell.getD k (Stmt.call "") = Stmt.call c →
    oracle c = Except.error e →
    (∀ j, j < k → oracle (nameOf (cell.getD j (Stmt.call ""))) = Except.ok ()) →
    runCellTrace oracle cell =
      ((cell.take (k + 1)).map nameOf, Except.error e) := by
  induction cell with
  | nil =>
    intro k c e _ hk
    simp at hk
  | cons s rest ih =>
    intro k c e hcalls hk hc he hok
    cases k with
    | zero =>
      have hs : s = Stmt.call c := by simpa using hc
      subst hs
      simp [runCellTrace, runStmtTrace, he, nameOf]
    | succ k' =>
      have hs := hcalls s (List.mem_cons_self s rest)
      cases s with
      | tryCatch a b => simp [isCall] at hs
      | call n =>
        have hok0 : oracle n = Except.ok () := by
          simpa [nameOf] using hok 0 (Nat.succ_pos k')
        have hrest : runCellTrace oracle rest =
            ((rest.take (k' + 1)).map nameOf, Except.error e) := by
          apply ih k' c e
          · intro t ht
            exact hcalls t (List.mem_cons_of_mem _ ht)
          · simpa using hk
          · simpa using hc
          · exact he
          · intro j hj
            simpa using hok (j + 1) (Nat.succ_lt_succ hj)
        simp [runCellTrace, runStmtTrace, hok0, hrest, nameOf]

/-- C2: no cell of the three notebooks contains a try/except (every
statement is a bare library call), and in every such cell a failing
library call makes the cell return that error unchanged, with exactly the
calls up to and including the failing one executed and nothing after. -/
theorem notebook_errors_propagate :
    (∀ cell ∈ notebookCells, ∀ s ∈ cell, isCall s = true) ∧
    ∀ (oracle : String → Except String Unit), ∀ cell ∈ notebookCells,
      ∀ (k : Nat) (c e : String), k < cell.length →
      cell.getD k (Stmt.call "") = Stmt.call c →
      oracle c = Except.error e →
      (∀ j, j < k →
        oracle (nameOf (cell.getD j (Stmt.call ""))) = Except.ok ()) →
      runCellTrace oracle cell =
        ((cell.take (k + 1)).map nameOf, Except.error e) := by
  have hcalls : ∀ cell ∈ notebookCells, ∀ s ∈ cell, isCall s = true := by
    decide
  refine ⟨hcalls, ?_⟩
  intro oracle cell hcell k c e hk hc he hok
  exact runCellTrace_stops_at_error oracle cell k c e (hcalls cell hcell)
    hk hc he hok

/-- An outcome oracle on which the CSV parse fails, as when seeds.csv is
missing after a failed download. -/
def oracle0 : String → Except String Unit :=
  fun n => if n = "pd.read_csv" then Except.error "FileNotFoundError" else Except.ok ()

/-- Concrete instance: in the clustering load cell, a failing pd.read_csv
stops the cell after the download and the parse, and the cell returns the
FileNotFoundError unchanged. -/
theorem notebook_errors_propagate_witness :
    runCellTrace oracle0 clusteringLoadCell =
      (["wget seeds.csv", "pd.read_csv"], Except.error "FileNotFoundError") := by
  have h := notebook_errors_propagate.2 oracle0 clusteringLoadCell (by decide)
    1 "pd.read_csv" "FileNotFoundError" (by decide) rfl rfl ?_
  · rw [h]
    rfl
  · intro j hj
    interval_cases j
    rfl
